import Mathlib

/-!
Shallow embedding of `src/seo_mcp_server/client.py` (the stdio MCP proxy):
the tool registry (`initialize_tools`), the backend tool invocation
(`call_tool`), the request dispatcher (`handle_request`) and the stdio
framing loop (`main`).

JSON values are modelled by the inductive `Json`; Python dicts are
association lists in insertion order (Python 3.7+ dicts preserve insertion
order, and `json.dumps` serializes in that order).  The two HTTP calls the
client makes are modelled by oracles of type `HttpOutcome`: the proxy never
inspects the wire, only the decoded response, so an outcome value (status
code plus decoded-or-failed body, or a raised transport exception) captures
everything the code can observe.  Raised Python exceptions are modelled by
`Except String` with the exception's `str(e)` text.
-/

/-- A JSON value as produced by Python's `json.loads`.  Numbers are modelled
as integers: no code path of the client does arithmetic on them. -/
inductive Json where
  | null : Json
  | bool (b : Bool) : Json
  | num (n : Int) : Json
  | str (s : String) : Json
  | arr (elems : List Json) : Json
  | obj (fields : List (String × Json)) : Json

namespace Json

/-- Python `==` between a decoded value and a string literal: true exactly
when the value is that string (Python equality across types is plain
`False`, never an error). -/
def eqStr : Json → String → Bool
  | .str t, s => t == s
  | _, _ => false

/-- Python truthiness of a decoded JSON value (`if self.tools:` etc.):
`None`, `False`, `0`, `""`, `[]` and `\x7b\x7d` are falsy. -/
def truthy : Json → Bool
  | .null => false
  | .bool b => b
  | .num n => n != 0
  | .str s => s != ""
  | .arr elems => !elems.isEmpty
  | .obj fields => !fields.isEmpty

/-- The Python type name of a decoded JSON value, as it appears in
`AttributeError` / `TypeError` messages. -/
def pyType : Json → String
  | .null => "NoneType"
  | .bool _ => "bool"
  | .num _ => "int"
  | .str _ => "str"
  | .arr _ => "list"
  | .obj _ => "dict"

/-- Whether the value is a JSON object (a Python dict). -/
def isObj : Json → Bool
  | .obj _ => true
  | _ => false

/-- The keys of an object, in insertion order. -/
def keys : Json → List String
  | .obj fields => fields.map Prod.fst
  | _ => []

end Json

/-- First-match lookup in an assoc list (Python dicts cannot hold duplicate
keys, so first-match agrees with dict lookup on every state the code builds). -/
def lookupKey : List (String × Json) → String → Option Json
  | [], _ => none
  | (k, v) :: rest, key => if k == key then some v else lookupKey rest key

/-- Python `d.get(key, default)` on a dict. -/
def lookupD (fields : List (String × Json)) (key : String) (dflt : Json) : Json :=
  (lookupKey fields key).getD dflt

/-- Python `d[key] = v` on a dict: replaces in place if the key exists,
otherwise appends (insertion order). -/
def setKey : List (String × Json) → String → Json → List (String × Json)
  | [], key, v => [(key, v)]
  | (k, w) :: rest, key, v =>
    if k == key then (k, v) :: rest else (k, w) :: setKey rest key v

/-- `d[key] = v` lifted to `Json`.  Every value the loop mutates this way is
an object returned by `handle_request`, so the non-object case is
unreachable; it is mapped to the identity. -/
def setKeyJ : Json → String → Json → Json
  | .obj fields, key, v => .obj (setKey fields key v)
  | other, _, _ => other

/-- `json.get(key)` on a `Json` known to be an object, `none` otherwise
(used only where the object shape is already established). -/
def getKeyJ : Json → String → Option Json
  | .obj fields, key => lookupKey fields key
  | _, _ => none

/-- Python `d.get(key, default)` on an arbitrary decoded value: raises
`AttributeError` when the value is not a dict. -/
def pyGet (j : Json) (key : String) (dflt : Json) : Except String Json :=
  match j with
  | .obj fields => .ok (lookupD fields key dflt)
  | other => .error ("'" ++ other.pyType ++ "' object has no attribute 'get'")

/-- Python `t[key]` on an arbitrary decoded value: `KeyError` on a dict
missing the key, `TypeError` on a non-dict. -/
def pyIndex (j : Json) (key : String) : Except String Json :=
  match j with
  | .obj fields =>
    match lookupKey fields key with
    | some v => .ok v
    | none => .error ("'" ++ key ++ "'")
  | .str _ => .error "string indices must be integers"
  | .arr _ => .error "list indices must be integers or slices, not str"
  | other => .error ("'" ++ other.pyType ++ "' object is not subscriptable")

/-- One hex digit. -/
def hexDigit (n : Nat) : Char :=
  if n < 10 then Char.ofNat (48 + n) else Char.ofNat (87 + n)

/-- Python `json.dumps` escaping of one character (`ensure_ascii=False`:
non-ASCII characters pass through unescaped). -/
def escChar (c : Char) : String :=
  if c = '"' then "\\\""
  else if c = '\\' then "\\\\"
  else if c = '\n' then "\\n"
  else if c = '\r' then "\\r"
  else if c = '\t' then "\\t"
  else if c = Char.ofNat 8 then "\\b"
  else if c = Char.ofNat 12 then "\\f"
  else if c.toNat < 32 then
    "\\u00" ++ String.mk [hexDigit (c.toNat / 16), hexDigit (c.toNat % 16)]
  else String.singleton c

/-- Python `json.dumps` of a string (`ensure_ascii=False`). -/
def dumpsStr (s : String) : String :=
  "\"" ++ String.join (s.data.map escChar) ++ "\""

/-- Python `json.dumps(\x7b"error": msg\x7d, ensure_ascii=False)`: the exact
serialized text the client embeds as a tool result on failure. -/
def errorJsonStr (msg : String) : String :=
  "\x7b\"error\": " ++ dumpsStr msg ++ "\x7d"

/-- The observable outcome of one HTTP call made with `httpx`:
either a response arrived (status code, and the result of `resp.json()` —
which itself may raise on a malformed body), or the call raised a transport
exception (timeout, DNS failure, connection refused, ...) with message
`str(e)`. -/
inductive HttpOutcome where
  | resp (status : Nat) (body : Except String Json) : HttpOutcome
  | exn (msg : String) : HttpOutcome

/-- The hard-coded fallback tool catalog assigned by
`StdioMCPClient.initialize_tools` when the remote fetch fails
(client.py lines 40-108), transcribed field by field. -/
def fallbackFields : List (String × Json) := [
  ("analyze_serp", .obj [
    ("name", .str "analyze_serp"),
    ("description", .str "Analyze SERP and derive patterns"),
    ("inputSchema", .obj [
      ("type", .str "object"),
      ("properties", .obj [("keyword", .obj [("type", .str "string")])]),
      ("required", .arr [.str "keyword"])])]),
  ("research_perplexity", .obj [
    ("name", .str "research_perplexity"),
    ("description", .str "Research using Perplexity API"),
    ("inputSchema", .obj [
      ("type", .str "object"),
      ("properties", .obj [
        ("keyword", .obj [("type", .str "string")]),
        ("patterns", .obj [("type", .str "string")])]),
      ("required", .arr [.str "keyword", .str "patterns"])])]),
  ("brainstorm_outline", .obj [
    ("name", .str "brainstorm_outline"),
    ("description", .str "Generate article outline"),
    ("inputSchema", .obj [
      ("type", .str "object"),
      ("properties", .obj [
        ("patterns", .obj [("type", .str "string")]),
        ("facts", .obj [("type", .str "string")])]),
      ("required", .arr [.str "patterns", .str "facts"])])]),
  ("gather_details", .obj [
    ("name", .str "gather_details"),
    ("description", .str "Gather details for outline"),
    ("inputSchema", .obj [
      ("type", .str "object"),
      ("properties", .obj [("outline", .obj [("type", .str "string")])]),
      ("required", .arr [.str "outline"])])]),
  ("generate_article", .obj [
    ("name", .str "generate_article"),
    ("description", .str "Generate article draft"),
    ("inputSchema", .obj [
      ("type", .str "object"),
      ("properties", .obj [
        ("outline", .obj [("type", .str "string")]),
        ("facts", .obj [("type", .str "string")]),
        ("details", .obj [("type", .str "string")])]),
      ("required", .arr [.str "outline", .str "facts", .str "details"])])]),
  ("embed_links", .obj [
    ("name", .str "embed_links"),
    ("description", .str "Embed links in article"),
    ("inputSchema", .obj [
      ("type", .str "object"),
      ("properties", .obj [
        ("article", .obj [("type", .str "string")]),
        ("research", .obj [("type", .str "string")])]),
      ("required", .arr [.str "article", .str "research"])])])]

/-- The fallback catalog as the dict `self.tools` is assigned to. -/
def fallbackTools : Json := .obj fallbackFields

/-- `StdioMCPClient.initialize_tools` (client.py lines 22-109).  State is
`self.tools` (initially the empty dict).  Returns the new `self.tools` and
whether a remote fetch was performed.  If `self.tools` is truthy the method
returns it at once (line 24-25).  Otherwise it performs the GET: on a 200
response whose body decodes to a dict it adopts `body.get("tools", \x7b\x7d)`;
every other outcome — transport exception, non-200 status, a body that fails
to decode, or a decoded non-dict body (whose `.get` raises `AttributeError`,
caught by the blanket `except` at line 36) — falls through to the fallback
catalog assignment. -/
def initialize_tools (tools : Json) (fetch : HttpOutcome) : Json × Bool :=
  if tools.truthy then (tools, false)
  else
    match fetch with
    | .resp status body =>
      if status = 200 then
        match body with
        | .ok (.obj fields) => (lookupD fields "tools" (.obj []), true)
        | _ => (fallbackTools, true)
      else (fallbackTools, true)
    | .exn _ => (fallbackTools, true)

/-- `StdioMCPClient.call_tool` (client.py lines 111-124), as a function of
the POST's observable outcome.  On a 200 response with a dict body it
returns `body.get("result", "")` (a decoded JSON value — the code assumes a
string but never checks).  On a 200 response with a non-dict body, `.get`
raises and the blanket `except` returns `json.dumps(\x7b"error": str(e)\x7d)`;
a body decode failure takes the same `except` with the decode error's text.
On a non-200 status it returns `json.dumps(\x7b"error": f"Backend error:
\x7bstatus\x7d"\x7d)`; on a transport exception, `json.dumps(\x7b"error":
str(e)\x7d)`. -/
def call_tool (outcome : HttpOutcome) : Json :=
  match outcome with
  | .resp status body =>
    if status = 200 then
      match body with
      | .ok (.obj fields) => lookupD fields "result" (.str "")
      | .ok other =>
        .str (errorJsonStr ("'" ++ other.pyType ++ "' object has no attribute 'get'"))
      | .error msg => .str (errorJsonStr msg)
    else .str (errorJsonStr ("Backend error: " ++ toString status))
  | .exn msg => .str (errorJsonStr msg)

/-- Builds one entry of the `tools/list` result: the dict comprehension
`\x7b"name": t["name"], "description": t["description"], "inputSchema":
t["inputSchema"]\x7d` of client.py lines 149-153, with the exceptions Python
indexing can raise. -/
def descriptorOf (t : Json) : Except String Json := do
  let n ← pyIndex t "name"
  let d ← pyIndex t "description"
  let s ← pyIndex t "inputSchema"
  pure (.obj [("name", n), ("description", d), ("inputSchema", s)])

/-- The `tools/list` result body: iterates `tools.values()` in insertion
order (raising `AttributeError` when the registry is not a dict, as happens
if a 200 catalog fetch stored a non-dict under `"tools"`). -/
def listDescriptors (tools : Json) : Except String Json :=
  match tools with
  | .obj fields => (fields.mapM (fun p => descriptorOf p.2)).map Json.arr
  | other => .error ("'" ++ other.pyType ++ "' object has no attribute 'values'")

/-- The fixed `initialize` handshake payload (client.py lines 133-139). -/
def initializeResult : Json := .obj [
  ("protocolVersion", .str "2024-11-05"),
  ("capabilities", .obj [("tools", .obj [])]),
  ("serverInfo", .obj [
    ("name", .str "seo-mcp-server"),
    ("version", .str "0.1.0")])]

/-- The `-32601` dispatcher response (client.py line 165). -/
def methodNotFound : Json := .obj [
  ("error", .obj [("code", .num (-32601)), ("message", .str "Method not found")])]

/-- The `tools/call` success wrapper (client.py line 163):
`\x7b"result": \x7b"content": [\x7b"type": "text", "text": result\x7d]\x7d\x7d`. -/
def wrapText (result : Json) : Json := .obj [
  ("result", .obj [
    ("content", .arr [.obj [("type", .str "text"), ("text", result)]])])]

/-- The outcome of one `handle_request` call: the returned response dict (or
the text of the exception that escaped), the new `self.tools`, and whether a
remote catalog fetch was performed during the call. -/
structure HandleOut where
  resp : Except String Json
  tools : Json
  fetched : Bool

/-- `StdioMCPClient.handle_request` (client.py lines 126-165).  `listFetch`
is the outcome the catalog GET would have, were it performed; `callF` maps
the POST body `\x7b"tool": name, "arguments": arguments\x7d` the code would
send to the outcome of that POST.  A non-dict request raises
`AttributeError` at `request.get("method")`; for `tools/call`, a non-dict
`params` raises at `params.get("name")`. -/
def handle_request (tools : Json) (request : Json)
    (listFetch : HttpOutcome) (callF : Json → HttpOutcome) : HandleOut :=
  match request with
  | .obj rf =>
    let method := lookupD rf "method" .null
    let params := lookupD rf "params" (.obj [])
    if method.eqStr "initialize" then
      let (t, fetched) := initialize_tools tools listFetch
      ⟨.ok (.obj [("result", initializeResult)]), t, fetched⟩
    else if method.eqStr "resources/list" then
      ⟨.ok (.obj [("result", .obj [("resources", .arr [])])]), tools, false⟩
    else if method.eqStr "tools/list" then
      let (t, fetched) := initialize_tools tools listFetch
      match listDescriptors t with
      | .ok ds => ⟨.ok (.obj [("result", .obj [("tools", ds)])]), t, fetched⟩
      | .error msg => ⟨.error msg, t, fetched⟩
    else if method.eqStr "tools/call" then
      match pyGet params "name" .null with
      | .error msg => ⟨.error msg, tools, false⟩
      | .ok name =>
        match pyGet params "arguments" (.obj []) with
        | .error msg => ⟨.error msg, tools, false⟩
        | .ok args =>
          let result := call_tool (callF (.obj [("tool", name), ("arguments", args)]))
          ⟨.ok (wrapText result), tools, false⟩
    else
      ⟨.ok methodNotFound, tools, false⟩
  | other =>
    ⟨.error ("'" ++ other.pyType ++ "' object has no attribute 'get'"), tools, false⟩

/-- The `-32700` frame written on a `json.JSONDecodeError` (client.py
line 205). -/
def parseErrorFrame : Json := .obj [
  ("jsonrpc", .str "2.0"),
  ("error", .obj [("code", .num (-32700)), ("message", .str "Parse error")])]

/-- The `-32603` frame written when dispatch raises (client.py line 208). -/
def internalErrorFrame (msg : String) : Json := .obj [
  ("jsonrpc", .str "2.0"),
  ("error", .obj [("code", .num (-32603)), ("message", .str msg)])]

/-- What one iteration of the read loop observes about its input line:
an empty read (`continue`, no frame), a line `json.loads` rejects, or a
decoded value together with the backend oracles in effect for its dispatch. -/
inductive LineEvent where
  | emptyRead : LineEvent
  | malformed : LineEvent
  | request (j : Json) (listFetch : HttpOutcome) (callF : Json → HttpOutcome) : LineEvent

/-- One iteration of the `while True` loop of `main` (client.py lines
192-209): returns the new `self.tools` and the frames written to stdout
(one frame per non-empty line).  On successful dispatch the loop copies the
request's `id` into the response when present (`if "id" in request` — the
request here is a dict, since dispatch of a non-dict raised), then stamps
`jsonrpc`.  The two `except` branches write their fixed frames without
touching the response. -/
def processLine (tools : Json) : LineEvent → Json × List Json
  | .emptyRead => (tools, [])
  | .malformed => (tools, [parseErrorFrame])
  | .request j listFetch callF =>
    let h := handle_request tools j listFetch callF
    match h.resp with
    | .ok response =>
      let response :=
        match getKeyJ j "id" with
        | some v => setKeyJ response "id" v
        | none => response
      (h.tools, [setKeyJ response "jsonrpc" (.str "2.0")])
    | .error msg => (h.tools, [internalErrorFrame msg])

/-- The read loop over a stream of line events, threading `self.tools`. -/
def processLines (tools : Json) : List LineEvent → List Json
  | [] => []
  | e :: rest =>
    let (t, out) := processLine tools e
    out ++ processLines t rest

/-- `os.environ.get(key, default)` over an environment modelled as an
assoc list. -/
def envGetD (env : List (String × String)) (key : String) (dflt : String) : String :=
  match env with
  | [] => dflt
  | (k, v) :: rest => if k == key then v else envGetD rest key dflt

/-- The startup diagnostic frame of `main` (client.py line 182). -/
def apiKeyErrorFrame : Json := .obj [
  ("jsonrpc", .str "2.0"),
  ("error", .obj [("code", .num (-32700)), ("message", .str "SEOMCP_API_KEY not set")])]

/-- `main` (client.py lines 177-209): reads `SEOMCP_API_KEY`; when it is
missing or empty (`if not api_key`) prints the single diagnostic frame and
exits with status 1 before the loop; otherwise constructs the client with an
empty registry and runs the loop.  Returns the frames written to stdout and
the exit status (`none` means the loop runs, never exiting). -/
def mainRun (env : List (String × String)) (events : List LineEvent) :
    List Json × Option Nat :=
  let apiKey := envGetD env "SEOMCP_API_KEY" ""
  if apiKey = "" then ([apiKeyErrorFrame], some 1)
  else (processLines (.obj []) events, none)

/-- The canonical `tools/list` request line. -/
def toolsListReq : Json := .obj [("method", .str "tools/list")]

/-- `fetchFails` is true exactly when the catalog GET does not come back as
a 200 response with a body that decodes to a dict — every such outcome makes
`initialize_tools` fall back (timeout and transport errors surface as
`.exn`, a decode failure as `.error`, a decoded non-dict body raises at
`.get`). -/
def fetchFails : HttpOutcome → Bool
  | .resp status (.ok (.obj _)) => status != 200
  | .resp _ _ => true
  | .exn _ => true

/-- The six built-in tool names, in catalog insertion order. -/
def fallbackNames : List String :=
  ["analyze_serp", "research_perplexity", "brainstorm_outline",
   "gather_details", "generate_article", "embed_links"]

/-- The frame the loop emits for a successfully dispatched request `j` whose
response dict is `r`: the `id` copy-back (client.py lines 199-200) followed
by the `jsonrpc` stamp (line 201). -/
def emitFrame (j r : Json) : Json :=
  setKeyJ (match getKeyJ j "id" with
    | some v => setKeyJ r "id" v
    | none => r) "jsonrpc" (.str "2.0")

/-! ## Helper lemmas -/

/-- A truthy (non-empty) registry short-circuits `initialize_tools`:
unchanged state, no fetch, whatever the network would have answered. -/
theorem initialize_tools_of_truthy (tools : Json) (h : tools.truthy = true)
    (fetch : HttpOutcome) : initialize_tools tools fetch = (tools, false) := by
  simp [initialize_tools, h]

/-- A failing fetch on an empty registry adopts the fallback catalog. -/
theorem initialize_tools_fallback (tools : Json) (f : HttpOutcome)
    (hempty : tools.truthy = false) (hfail : fetchFails f = true) :
    initialize_tools tools f = (fallbackTools, true) := by
  cases f with
  | exn msg => simp [initialize_tools, hempty]
  | resp status body =>
    by_cases hs : status = 200
    · subst hs
      cases body with
      | error msg => simp [initialize_tools, hempty]
      | ok j =>
        cases j with
        | obj fields => simp [fetchFails] at hfail
        | null => simp [initialize_tools, hempty]
        | bool b => simp [initialize_tools, hempty]
        | num n => simp [initialize_tools, hempty]
        | str s => simp [initialize_tools, hempty]
        | arr elems => simp [initialize_tools, hempty]
    · simp [initialize_tools, hempty, hs]

/-! ## C1 -/

/-- C1: once the registry is populated (non-empty — the state every
populating call leaves behind), `initialize_tools` returns it unchanged with
no fetch, and a `tools/list` dispatch keeps the state, performs no fetch,
and its response does not depend on what the network would answer. -/
theorem c1_registry_memoized (tools : Json) (h : tools.truthy = true)
    (lf lf' : HttpOutcome) (cf : Json → HttpOutcome) :
    initialize_tools tools lf = (tools, false) ∧
    (handle_request tools toolsListReq lf cf).tools = tools ∧
    (handle_request tools toolsListReq lf cf).fetched = false ∧
    (handle_request tools toolsListReq lf cf).resp =
      (handle_request tools toolsListReq lf' cf).resp := by
  have hi : ∀ f : HttpOutcome, initialize_tools tools f = (tools, false) :=
    fun f => initialize_tools_of_truthy tools h f
  have hlist : ∀ f : HttpOutcome, handle_request tools toolsListReq f cf =
      (match listDescriptors tools with
       | .ok ds => ⟨.ok (.obj [("result", .obj [("tools", ds)])]), tools, false⟩
       | .error msg => ⟨.error msg, tools, false⟩) := by
    intro f
    simp [handle_request, toolsListReq, lookupD, lookupKey, Json.eqStr, hi f]
  refine ⟨hi lf, ?_, ?_, ?_⟩
  · rw [hlist lf]; split <;> rfl
  · rw [hlist lf]; split <;> rfl
  · rw [hlist lf, hlist lf']

/-- Witness for C1 at the fallback catalog as cached state. -/
theorem c1_registry_memoized_witness :
    fallbackTools.truthy = true ∧
    initialize_tools fallbackTools (.exn "timeout") = (fallbackTools, false) :=
  ⟨rfl, (c1_registry_memoized fallbackTools rfl (.exn "timeout")
    (.resp 500 (.error "boom")) (fun _ => .exn "down")).1⟩

/-! ## C2 -/

/-- C2: on an empty registry, every failing catalog fetch makes
`initialize_tools` adopt the built-in catalog of exactly the six tools in
order, and the `tools/list` dispatch then answers with exactly those six
descriptors. -/
theorem c2_fallback_catalog (tools : Json) (f : HttpOutcome) (cf : Json → HttpOutcome)
    (hempty : tools.truthy = false) (hfail : fetchFails f = true) :
    initialize_tools tools f = (fallbackTools, true) ∧
    fallbackTools.keys = fallbackNames ∧
    (handle_request tools toolsListReq f cf).resp =
      .ok (.obj [("result",
        .obj [("tools", .arr (fallbackFields.map Prod.snd))])]) := by
  have h1 := initialize_tools_fallback tools f hempty hfail
  have hld : listDescriptors fallbackTools =
      .ok (.arr (fallbackFields.map Prod.snd)) := rfl
  refine ⟨h1, rfl, ?_⟩
  simp [handle_request, toolsListReq, lookupD, lookupKey, Json.eqStr, h1, hld]

/-- Witness for C2: empty registry, HTTP 500 from the catalog GET. -/
theorem c2_fallback_catalog_witness :
    (Json.obj []).truthy = false ∧
    fetchFails (.resp 500 (.ok (.obj []))) = true ∧
    initialize_tools (.obj []) (.resp 500 (.ok (.obj []))) =
      (fallbackTools, true) :=
  ⟨rfl, rfl,
    (c2_fallback_catalog (.obj []) (.resp 500 (.ok (.obj [])))
      (fun _ => .exn "down") rfl rfl).1⟩

/-! ## Dispatcher response shape -/

/-- Every response dict `handle_request` returns without raising is a
one-key dict: `\x7b"result": ...\x7d`, or the fixed `-32601` error dict.
In particular it never carries `"id"` or `"jsonrpc"` before the loop adds
them. -/
theorem handle_request_ok_shape (tools request : Json) (lf : HttpOutcome)
    (cf : Json → HttpOutcome) (r : Json)
    (hr : (handle_request tools request lf cf).resp = .ok r) :
    (∃ x, r = .obj [("result", x)]) ∨ r = methodNotFound := by
  cases request with
  | null => simp [handle_request] at hr
  | bool b => simp [handle_request] at hr
  | num n => simp [handle_request] at hr
  | str s => simp [handle_request] at hr
  | arr elems => simp [handle_request] at hr
  | obj rf =>
    simp only [handle_request] at hr
    repeat' split at hr
    all_goals simp at hr
    all_goals first
      | exact Or.inl ⟨_, hr⟩
      | exact Or.inl ⟨_, hr.symm⟩
      | exact Or.inr hr
      | exact Or.inr hr.symm

/-! ## C3 -/

/-- C3: when the tools/call backend invocation fails — non-200 status or a
transport exception — the dispatcher still returns a result envelope (never
a protocol error) whose text content is the serialized
`\x7b"error": ...\x7d` JSON string carrying `Backend error: <status>` for a
non-200 response and the exception's message for a transport failure. -/
theorem c3_tool_failure_as_result (tools : Json) (rf ps : List (String × Json))
    (lf : HttpOutcome)
    (hm : lookupD rf "method" .null = .str "tools/call")
    (hp : lookupD rf "params" (.obj []) = .obj ps) :
    (∀ (status : Nat) (body : Except String Json), status ≠ 200 →
      (handle_request tools (.obj rf) lf (fun _ => .resp status body)).resp =
        .ok (wrapText (.str (errorJsonStr ("Backend error: " ++ toString status))))) ∧
    (∀ msg : String,
      (handle_request tools (.obj rf) lf (fun _ => .exn msg)).resp =
        .ok (wrapText (.str (errorJsonStr msg)))) := by
  constructor
  · intro status body hs
    simp [handle_request, hm, hp, Json.eqStr, pyGet, call_tool, hs]
  · intro msg
    simp [handle_request, hm, hp, Json.eqStr, pyGet, call_tool]

/-- Witness for C3: HTTP 500 and a connection failure, on the spec's
example request. -/
theorem c3_tool_failure_as_result_witness :
    lookupD [("method", Json.str "tools/call"),
      ("params", Json.obj [("name", Json.str "analyze_serp"),
        ("arguments", Json.obj [("keyword", Json.str "x")])])] "method" .null =
      .str "tools/call" ∧
    (500 : Nat) ≠ 200 ∧
    (handle_request (.obj []) (.obj [("method", Json.str "tools/call"),
        ("params", Json.obj [("name", Json.str "analyze_serp"),
          ("arguments", Json.obj [("keyword", Json.str "x")])])])
      (.exn "down") (fun _ => .resp 500 (.ok (.obj [])))).resp =
      .ok (wrapText (.str (errorJsonStr ("Backend error: " ++ toString (500 : Nat))))) :=
  ⟨rfl, by decide,
    (c3_tool_failure_as_result (.obj [])
      [("method", Json.str "tools/call"),
       ("params", Json.obj [("name", Json.str "analyze_serp"),
         ("arguments", Json.obj [("keyword", Json.str "x")])])]
      [("name", Json.str "analyze_serp"),
       ("arguments", Json.obj [("keyword", Json.str "x")])]
      (.exn "down") rfl rfl).1 500 (.ok (.obj [])) (by decide)⟩

/-! ## C4 -/

/-- C4: a tools/call dispatch extracts `params.name` and `params.arguments`
(an absent `arguments` defaults to the empty dict), posts
`\x7b"tool": name, "arguments": arguments\x7d` to the backend, and on a 200
response with a dict body wraps `body.get("result", "")` as
`\x7b"result": \x7b"content": [\x7b"type": "text", "text": <that value>\x7d]\x7d\x7d`. -/
theorem c4_tool_call_success (tools : Json) (rf ps bf : List (String × Json))
    (lf : HttpOutcome) (callF : Json → HttpOutcome)
    (hm : lookupD rf "method" .null = .str "tools/call")
    (hp : lookupD rf "params" (.obj []) = .obj ps)
    (hc : callF (.obj [("tool", lookupD ps "name" .null),
            ("arguments", lookupD ps "arguments" (.obj []))]) =
          .resp 200 (.ok (.obj bf))) :
    (handle_request tools (.obj rf) lf callF).resp =
      .ok (wrapText (lookupD bf "result" (.str ""))) := by
  simp [handle_request, hm, hp, Json.eqStr, pyGet, call_tool, hc]

/-- Witness for C4: the spec's example — calling `analyze_serp` with
`\x7b"keyword": "x"\x7d` against a backend answering `\x7b"result": "ok"\x7d`
yields the `"ok"` text envelope. -/
theorem c4_tool_call_success_witness :
    (handle_request (.obj []) (.obj [("method", Json.str "tools/call"),
        ("params", Json.obj [("name", Json.str "analyze_serp"),
          ("arguments", Json.obj [("keyword", Json.str "x")])])])
      (.exn "down")
      (fun _ => .resp 200 (.ok (.obj [("result", Json.str "ok")])))).resp =
      .ok (wrapText (.str "ok")) :=
  c4_tool_call_success (.obj [])
    [("method", Json.str "tools/call"),
     ("params", Json.obj [("name", Json.str "analyze_serp"),
       ("arguments", Json.obj [("keyword", Json.str "x")])])]
    [("name", Json.str "analyze_serp"),
     ("arguments", Json.obj [("keyword", Json.str "x")])]
    [("result", Json.str "ok")]
    (.exn "down")
    (fun _ => .resp 200 (.ok (.obj [("result", Json.str "ok")])))
    rfl rfl rfl

/-- A request whose dispatch returns a response dict is emitted as exactly
one frame: the response with `id` copied back and `jsonrpc` stamped. -/
theorem processLine_request_ok (tools j : Json) (lf : HttpOutcome)
    (cf : Json → HttpOutcome) (r t2 : Json) (b : Bool)
    (h : handle_request tools j lf cf = ⟨.ok r, t2, b⟩) :
    processLine tools (.request j lf cf) = (t2, [emitFrame j r]) := by
  simp [processLine, h, emitFrame]

/-- A request whose dispatch raises is emitted as exactly one `-32603`
frame, with the new registry state kept. -/
theorem processLine_request_error (tools j : Json) (lf : HttpOutcome)
    (cf : Json → HttpOutcome) (msg : String) (t2 : Json) (b : Bool)
    (h : handle_request tools j lf cf = ⟨.error msg, t2, b⟩) :
    processLine tools (.request j lf cf) = (t2, [internalErrorFrame msg]) := by
  simp [processLine, h]

/-! ## C5 -/

/-- C5: a malformed input line produces exactly one frame — the fixed
`-32700` parse-error frame — and the loop then processes the remaining
lines from the unchanged state. -/
theorem c5_parse_error_resilience (tools : Json) (rest : List LineEvent) :
    processLine tools .malformed = (tools, [parseErrorFrame]) ∧
    parseErrorFrame = .obj [("jsonrpc", .str "2.0"),
      ("error", .obj [("code", .num (-32700)), ("message", .str "Parse error")])] ∧
    processLines tools (.malformed :: rest) =
      parseErrorFrame :: processLines tools rest := by
  refine ⟨rfl, rfl, ?_⟩
  simp [processLines, processLine]

/-! ## C8 -/

/-- C8: when `SEOMCP_API_KEY` is absent or empty, `main` emits exactly the
one diagnostic frame and exits with status 1 — whatever lines stdin would
have carried, none is processed. -/
theorem c8_missing_api_key (env : List (String × String)) (events : List LineEvent)
    (h : envGetD env "SEOMCP_API_KEY" "" = "") :
    mainRun env events = ([apiKeyErrorFrame], some 1) ∧ (1 : Nat) ≠ 0 := by
  refine ⟨?_, by decide⟩
  simp [mainRun, h]

/-- Witness for C8: the key present but empty, with input lines pending. -/
theorem c8_missing_api_key_witness :
    envGetD [("SEOMCP_API_KEY", "")] "SEOMCP_API_KEY" "" = "" ∧
    mainRun [("SEOMCP_API_KEY", "")] [.malformed, .emptyRead] =
      ([apiKeyErrorFrame], some 1) :=
  ⟨rfl, (c8_missing_api_key [("SEOMCP_API_KEY", "")] [.malformed, .emptyRead] rfl).1⟩

/-! ## C9 -/

/-- C9: a request whose method equals none of `initialize`,
`resources/list`, `tools/list`, `tools/call` (under Python `==`, so also a
missing or non-string method) is answered with the `-32601` Method-not-found
protocol error, leaves the registry unchanged with no fetch, and the loop
keeps processing the following lines. -/
theorem c9_unknown_method (tools : Json) (rf : List (String × Json))
    (lf : HttpOutcome) (cf : Json → HttpOutcome) (rest : List LineEvent)
    (h1 : (lookupD rf "method" .null).eqStr "initialize" = false)
    (h2 : (lookupD rf "method" .null).eqStr "resources/list" = false)
    (h3 : (lookupD rf "method" .null).eqStr "tools/list" = false)
    (h4 : (lookupD rf "method" .null).eqStr "tools/call" = false) :
    handle_request tools (.obj rf) lf cf = ⟨.ok methodNotFound, tools, false⟩ ∧
    processLines tools (.request (.obj rf) lf cf :: rest) =
      emitFrame (.obj rf) methodNotFound :: processLines tools rest := by
  have hh : handle_request tools (.obj rf) lf cf =
      ⟨.ok methodNotFound, tools, false⟩ := by
    simp [handle_request, h1, h2, h3, h4]
  refine ⟨hh, ?_⟩
  simp [processLines, processLine_request_ok tools (.obj rf) lf cf
    methodNotFound tools false hh]

/-- Witness for C9 at the spec's example method `frobnicate`. -/
theorem c9_unknown_method_witness :
    (lookupD [("method", Json.str "frobnicate")] "method" .null).eqStr
      "tools/call" = false ∧
    handle_request (.obj []) (.obj [("method", Json.str "frobnicate")])
      (.exn "t") (fun _ => .exn "t") = ⟨.ok methodNotFound, .obj [], false⟩ :=
  ⟨rfl, (c9_unknown_method (.obj []) [("method", Json.str "frobnicate")]
    (.exn "t") (fun _ => .exn "t") [] rfl rfl rfl rfl).1⟩

/-! ## C10 -/

/-- C10: a line that decodes to a non-object (number, string, array, null,
boolean) makes dispatch raise `AttributeError` at `request.get("method")`,
so the loop emits the `-32603` internal-error frame — which is not the
`-32700` parse-error frame — and continues with the next line. -/
theorem c10_non_object_line (tools j : Json) (lf : HttpOutcome)
    (cf : Json → HttpOutcome) (rest : List LineEvent)
    (h : j.isObj = false) :
    processLine tools (.request j lf cf) =
      (tools, [internalErrorFrame
        ("'" ++ j.pyType ++ "' object has no attribute 'get'")]) ∧
    internalErrorFrame ("'" ++ j.pyType ++ "' object has no attribute 'get'") ≠
      parseErrorFrame ∧
    processLines tools (.request j lf cf :: rest) =
      internalErrorFrame ("'" ++ j.pyType ++ "' object has no attribute 'get'")
        :: processLines tools rest := by
  have hh : handle_request tools j lf cf =
      ⟨.error ("'" ++ j.pyType ++ "' object has no attribute 'get'"),
        tools, false⟩ := by
    cases j <;> simp_all [handle_request, Json.isObj]
  have hp := processLine_request_error tools j lf cf
    ("'" ++ j.pyType ++ "' object has no attribute 'get'") tools false hh
  refine ⟨hp, ?_, ?_⟩
  · simp [internalErrorFrame, parseErrorFrame]
  · simp [processLines, hp]

/-- Witness for C10: the bare number `5` as an input line. -/
theorem c10_non_object_line_witness :
    (Json.num 5).isObj = false ∧
    processLine (.obj []) (.request (.num 5) (.exn "t") (fun _ => .exn "t")) =
      ((.obj []), [internalErrorFrame "'int' object has no attribute 'get'"]) :=
  ⟨rfl, (c10_non_object_line (.obj []) (.num 5) (.exn "t")
    (fun _ => .exn "t") [] rfl).1⟩

/-! ## C6 -/

/-- C6 counterexample: the well-formed request object
`\x7b"method": "tools/call", "params": 5, "id": 1\x7d` carries an `id`, but
its dispatch raises (`params.get` on an int), the loop's `except` branch
emits the `-32603` frame as written at client.py line 208, and that frame
has no `id` field — the id is not copied back. -/
theorem c6_counterexample :
    lookupKey [("method", Json.str "tools/call"), ("params", Json.num 5),
      ("id", Json.num 1)] "id" = some (.num 1) ∧
    processLine (.obj []) (.request (.obj [("method", Json.str "tools/call"),
        ("params", Json.num 5), ("id", Json.num 1)])
      (.exn "t") (fun _ => .exn "t")) =
      ((.obj []), [internalErrorFrame "'int' object has no attribute 'get'"]) ∧
    getKeyJ (internalErrorFrame "'int' object has no attribute 'get'") "id" =
      none :=
  ⟨rfl, rfl, rfl⟩

/-- C6 amended: every request object is answered by exactly one frame; when
dispatch returns a response (it did not raise), that frame carries exactly
the request's `id` — the same value when present, no `id` field when absent
— while when dispatch raises, the `-32603` frame carries no `id` even if the
request had one. -/
theorem c6_id_roundtrip (tools : Json) (rf : List (String × Json))
    (lf : HttpOutcome) (cf : Json → HttpOutcome) :
    ∃ f, (processLine tools (.request (.obj rf) lf cf)).2 = [f] ∧
      (∀ r, (handle_request tools (.obj rf) lf cf).resp = .ok r →
        getKeyJ f "id" = lookupKey rf "id") ∧
      (∀ msg, (handle_request tools (.obj rf) lf cf).resp = .error msg →
        getKeyJ f "id" = none) := by
  rcases hR : handle_request tools (.obj rf) lf cf with ⟨resp, t2, b⟩
  cases resp with
  | ok r =>
    refine ⟨emitFrame (.obj rf) r, ?_, ?_, ?_⟩
    · rw [processLine_request_ok tools (.obj rf) lf cf r t2 b hR]
    · intro r' hr'
      have hshape := handle_request_ok_shape tools (.obj rf) lf cf r (by rw [hR])
      rcases hshape with ⟨x, hx⟩ | hx <;> subst hx <;>
        cases hid : lookupKey rf "id" <;>
          simp [emitFrame, getKeyJ, setKeyJ, setKey, lookupKey, hid, methodNotFound]
    · intro msg hmsg
      exact absurd hmsg (by simp)
  | error msg =>
    refine ⟨internalErrorFrame msg, ?_, ?_, ?_⟩
    · rw [processLine_request_error tools (.obj rf) lf cf msg t2 b hR]
    · intro r' hr'
      exact absurd hr' (by simp)
    · intro msg' hmsg'
      simp [internalErrorFrame, getKeyJ, lookupKey]

/-- Witness for C6 amended: a `resources/list` request with id 7 is answered
by one frame whose id is 7. -/
theorem c6_id_roundtrip_witness :
    ∃ f, (processLine (.obj []) (.request
        (.obj [("method", Json.str "resources/list"), ("id", Json.num 7)])
        (.exn "t") (fun _ => .exn "t"))).2 = [f] ∧
      getKeyJ f "id" = some (.num 7) := by
  obtain ⟨f, hf, h1, h2⟩ := c6_id_roundtrip (.obj [])
    [("method", Json.str "resources/list"), ("id", Json.num 7)]
    (.exn "t") (fun _ => .exn "t")
  exact ⟨f, hf, (h1 _ rfl).trans rfl⟩

/-! ## C7 -/

/-- Stamping `id` and `jsonrpc` onto either dispatcher response shape yields
a frame with `jsonrpc: "2.0"` and exactly one of `result`/`error`. -/
theorem emitFrame_envelope (j r : Json)
    (hshape : (∃ x, r = .obj [("result", x)]) ∨ r = methodNotFound) :
    getKeyJ (emitFrame j r) "jsonrpc" = some (.str "2.0") ∧
    (((getKeyJ (emitFrame j r) "result").isSome ∧
        getKeyJ (emitFrame j r) "error" = none) ∨
     (getKeyJ (emitFrame j r) "result" = none ∧
        (getKeyJ (emitFrame j r) "error").isSome)) := by
  rcases hshape with ⟨x, hx⟩ | hx <;> subst hx <;>
    cases hid : getKeyJ j "id" <;>
      simp only [emitFrame, hid] <;>
      simp [setKeyJ, setKey, getKeyJ, lookupKey, methodNotFound]

/-- Every frame the loop emits, from any registry state, satisfies the
envelope invariant. -/
theorem processLines_envelope (events : List LineEvent) : ∀ tools : Json,
    ∀ f ∈ processLines tools events,
      getKeyJ f "jsonrpc" = some (.str "2.0") ∧
      (((getKeyJ f "result").isSome ∧ getKeyJ f "error" = none) ∨
       (getKeyJ f "result" = none ∧ (getKeyJ f "error").isSome)) := by
  induction events with
  | nil => intro tools f hf; simp [processLines] at hf
  | cons e rest ih =>
    intro tools f hf
    rw [show processLines tools (e :: rest) =
        (processLine tools e).2 ++ processLines (processLine tools e).1 rest
      from rfl] at hf
    rcases List.mem_append.mp hf with hf1 | hf2
    · cases e with
      | emptyRead => simp [processLine] at hf1
      | malformed =>
        simp [processLine] at hf1
        subst hf1
        exact ⟨rfl, Or.inr ⟨rfl, rfl⟩⟩
      | request j lf cf =>
        rcases hR : handle_request tools j lf cf with ⟨resp, t2, b⟩
        cases resp with
        | ok r =>
          rw [processLine_request_ok tools j lf cf r t2 b hR] at hf1
          simp at hf1
          subst hf1
          exact emitFrame_envelope j r
            (handle_request_ok_shape tools j lf cf r (by rw [hR]))
        | error msg =>
          rw [processLine_request_error tools j lf cf msg t2 b hR] at hf1
          simp at hf1
          subst hf1
          exact ⟨rfl, Or.inr ⟨rfl, rfl⟩⟩
    · exact ih (processLine tools e).1 f hf2

/-- C7: every frame the process emits — the startup diagnostic, the parse
and internal error frames, and every dispatched response — carries
`jsonrpc: "2.0"` together with exactly one of the `result` and `error`
keys. -/
theorem c7_envelope_invariant (env : List (String × String))
    (events : List LineEvent) :
    ∀ f ∈ (mainRun env events).1,
      getKeyJ f "jsonrpc" = some (.str "2.0") ∧
      (((getKeyJ f "result").isSome ∧ getKeyJ f "error" = none) ∨
       (getKeyJ f "result" = none ∧ (getKeyJ f "error").isSome)) := by
  intro f hf
  by_cases hk : envGetD env "SEOMCP_API_KEY" "" = ""
  · simp [mainRun, hk] at hf
    subst hf
    exact ⟨rfl, Or.inr ⟨rfl, rfl⟩⟩
  · simp [mainRun, hk] at hf
    exact processLines_envelope events (.obj []) f hf

/-- Witness for C7 at the parse-error frame a malformed line produces. -/
theorem c7_envelope_invariant_witness :
    getKeyJ parseErrorFrame "jsonrpc" = some (.str "2.0") ∧
    (((getKeyJ parseErrorFrame "result").isSome ∧
        getKeyJ parseErrorFrame "error" = none) ∨
     (getKeyJ parseErrorFrame "result" = none ∧
        (getKeyJ parseErrorFrame "error").isSome)) :=
  c7_envelope_invariant [("SEOMCP_API_KEY", "k")] [.malformed] parseErrorFrame
    (by simp [mainRun, envGetD, processLines, processLine])
